import Mathlib

set_option maxRecDepth 4000

/-!
Shallow embedding of the BLE audio recorder `record.py` (Amua-Innovations/amua-recorder)
and proofs about its packet decoding, buffer management, stream/recording state machine,
WAV serialisation and device discovery.

Conventions of the embedding:
* Bytes are natural numbers (each below 256 where it matters, stated as hypotheses).
* Wall-clock timestamps are integers counting microseconds, the resolution of Python
  `datetime` values; the source's 2-second guard is the comparison
  `now - start_time < 2 * USEC_PER_SECOND`.
* A Python exception raised inside a function leaves the mutable state untouched; such
  functions return the unchanged state together with an error value.
-/

/-- Audio characteristic UUID constant from record.py line 17. -/
def AUDIO_CHAR_UUID : String := "12345678-1234-5678-1234-56789abcdef7"

/-- Sample rate constant from record.py line 18. -/
def SAMPLE_RATE : ℕ := 32000

/-- Address allow-list from record.py line 19. -/
def DEVICES : List String := ["D5:91:CC:7A:AC:E4", "E4:02:D2:DA:A5:29"]

/-- Timestamps in integer microseconds, the resolution of Python datetime. -/
abbrev Time := ℤ

/-- Microseconds per second, used to express the source's second-valued literals. -/
def USEC_PER_SECOND : ℤ := 1000000

/-- little-endian unsigned 16-bit read, struct.unpack format <H on two bytes. -/
def leU16 (b0 b1 : ℕ) : ℕ := b0 + 256 * b1

/-- little-endian signed 16-bit read, struct.unpack format <h on two bytes. -/
def leI16 (b0 b1 : ℕ) : ℤ :=
  let u := b0 + 256 * b1
  if u < 32768 then (u : ℤ) else (u : ℤ) - 65536

/-- Decode consecutive little-endian int16 values from a byte list,
as struct.unpack format <Nh does over 2N bytes. -/
def decodeI16LE : List ℕ → List ℤ
  | b0 :: b1 :: rest => leI16 b0 b1 :: decodeI16LE rest
  | _ => []

/-- Error raised by struct.unpack when the slice is shorter than the format needs. -/
inductive DecodeError where
  | short
  deriving DecidableEq

/-- Packet parse section of notification_handler (record.py lines 82-85): seq_num is
struct.unpack <H of data[0:2]; the samples are struct.unpack <121h of data[1:243].
Either unpack raises struct.error when the slice has fewer bytes than the format
requires, which happens exactly when the packet is shorter than 243 bytes. -/
def decodePacket (data : List ℕ) : Except DecodeError (ℕ × List ℤ) :=
  if data.length < 2 then .error .short
  else if data.length < 243 then .error .short
  else .ok (leU16 (data.getD 0 0) (data.getD 1 0), decodeI16LE ((data.drop 1).take 242))

/-- Session state dictionary initialised in main (record.py lines 150-156). -/
structure RecState where
  audio_samples : List ℤ
  recording : List ℤ
  is_recording : Bool
  is_streaming : Bool
  start_time : Option Time
  deriving DecidableEq

/-- Initial session state from main (record.py lines 150-156). -/
def init_state : RecState :=
  { audio_samples := [], recording := [], is_recording := false,
    is_streaming := false, start_time := none }

/-- Errors a delivery of one notification can raise inside the handler. -/
inductive HandlerErr where
  | startTimeNone
  | decodeFailed (e : DecodeError)
  deriving DecidableEq

/-- notification_handler (record.py lines 72-88) with the wall clock passed explicitly.
When start_time is still None the subtraction on line 75 raises TypeError before anything
else happens; within 2 seconds of start_time the packet is skipped; otherwise the packet
is parsed and its samples are appended to audio_samples and, when is_recording holds,
also to recording. An exception leaves the state dictionary untouched and is reported in
the second component. -/
def notification_handler (now : Time) (data : List ℕ) (s : RecState) :
    RecState × Option HandlerErr :=
  match s.start_time with
  | none => (s, some .startTimeNone)
  | some t0 =>
    if now - t0 < 2 * USEC_PER_SECOND then (s, none)
    else
      match decodePacket data with
      | .error e => (s, some (.decodeFailed e))
      | .ok (_, samples) =>
        ({ s with
            audio_samples := s.audio_samples ++ samples,
            recording := if s.is_recording then s.recording ++ samples else s.recording },
         none)

theorem decodeI16LE_length : ∀ l : List ℕ, (decodeI16LE l).length = l.length / 2
  | [] => rfl
  | [_] => by simp [decodeI16LE]
  | _ :: _ :: rest => by
    simp only [decodeI16LE, List.length_cons, decodeI16LE_length rest]
    omega

theorem decodePacket_ok (data : List ℕ) (hlen : 243 ≤ data.length) :
    decodePacket data =
      .ok (leU16 (data.getD 0 0) (data.getD 1 0), decodeI16LE ((data.drop 1).take 242)) := by
  unfold decodePacket
  rw [if_neg (by omega), if_neg (by omega)]

theorem decodePacket_short (data : List ℕ) (hshort : data.length < 243) :
    decodePacket data = .error DecodeError.short := by
  unfold decodePacket
  by_cases h2 : data.length < 2
  · rw [if_pos h2]
  · rw [if_neg h2, if_pos hshort]

/-- C1: a raw notification packet of at least 243 bytes decodes to the little-endian
unsigned 16-bit sequence number in bytes [0..2) together with 121 samples read as
little-endian signed 16-bit integers from bytes [1..243) (deliberately overlapping
the second sequence-number byte), and exactly these 121 samples are appended to
audio_samples and, when recording, to recording. -/
theorem packet_decode_appends (now t0 : Time) (data : List ℕ) (s : RecState)
    (hlen : 243 ≤ data.length) (hst : s.start_time = some t0)
    (helapsed : 2 * USEC_PER_SECOND ≤ now - t0) :
    ∃ samples : List ℤ,
      decodePacket data = .ok (leU16 (data.getD 0 0) (data.getD 1 0), samples) ∧
      samples = decodeI16LE ((data.drop 1).take 242) ∧
      samples.length = 121 ∧
      notification_handler now data s =
        ({ s with
            audio_samples := s.audio_samples ++ samples,
            recording := if s.is_recording then s.recording ++ samples else s.recording },
         none) := by
  refine ⟨decodeI16LE ((data.drop 1).take 242), decodePacket_ok data hlen, rfl, ?_, ?_⟩
  · rw [decodeI16LE_length]
    simp only [List.length_take, List.length_drop]
    omega
  · unfold notification_handler
    rw [hst]
    simp only [if_neg (not_lt.mpr helapsed), decodePacket_ok data hlen]

/-- Witness for C1 at the all-zero 243-byte packet. -/
theorem packet_decode_appends_witness :
    (243 ≤ (List.replicate 243 0).length ∧
      ({ init_state with start_time := some 0 } : RecState).start_time = some 0 ∧
      2 * USEC_PER_SECOND ≤ (5000000 : Time) - 0) ∧
    (∃ samples : List ℤ,
      decodePacket (List.replicate 243 0) =
        .ok (leU16 ((List.replicate 243 0).getD 0 0) ((List.replicate 243 0).getD 1 0),
          samples) ∧
      samples = decodeI16LE (((List.replicate 243 0).drop 1).take 242) ∧
      samples.length = 121 ∧
      notification_handler 5000000 (List.replicate 243 0)
          { init_state with start_time := some 0 } =
        ({ { init_state with start_time := some 0 } with
            audio_samples :=
              ({ init_state with start_time := some 0 } : RecState).audio_samples ++ samples,
            recording :=
              if ({ init_state with start_time := some 0 } : RecState).is_recording then
                ({ init_state with start_time := some 0 } : RecState).recording ++ samples
              else ({ init_state with start_time := some 0 } : RecState).recording },
         none)) :=
  ⟨⟨by simp, rfl, by decide⟩,
    packet_decode_appends 5000000 0 (List.replicate 243 0)
      { init_state with start_time := some 0 } (by simp) rfl (by decide)⟩

/-- C2: a packet shorter than 243 bytes always makes the parse raise a decode error and
every delivery of such a packet leaves the session state, in particular both buffers and
the streaming flag, unmodified. -/
theorem short_packet_drop (data : List ℕ) (hshort : data.length < 243) :
    decodePacket data = .error DecodeError.short ∧
    ∀ (now : Time) (s : RecState), (notification_handler now data s).1 = s := by
  refine ⟨decodePacket_short data hshort, ?_⟩
  intro now s
  unfold notification_handler
  cases hst : s.start_time with
  | none => rfl
  | some t0 =>
    by_cases hlt : now - t0 < 2 * USEC_PER_SECOND
    · simp [hlt]
    · simp [hlt, decodePacket_short data hshort]

/-- Witness for C2 at a 10-byte packet. -/
theorem short_packet_drop_witness :
    (List.replicate 10 0).length < 243 ∧
    (decodePacket (List.replicate 10 0) = .error DecodeError.short ∧
      ∀ (now : Time) (s : RecState),
        (notification_handler now (List.replicate 10 0) s).1 = s) :=
  ⟨by decide, short_packet_drop (List.replicate 10 0) (by decide)⟩

/-- BLE operations the session performs on the audio characteristic. -/
inductive BleAction where
  | subscribe
  | writeStart
  | writeStop
  | unsubscribe
  deriving DecidableEq

/-- Failure of an awaited GATT operation, surfaced as a Python exception. -/
inductive TransportErr where
  | writeFailed
  | stopNotifyFailed
  deriving DecidableEq

/-- stop_stream (record.py lines 109-123) with the outcomes of the two awaited GATT
operations passed as flags. Returns the BLE actions that completed together with either
the returned value (always False) or the exception that escaped: the body has no
try/except, so a failing STOP write or stop_notify propagates to the caller. -/
def stop_stream (is_streaming writeOk stopNotifyOk : Bool) :
    List BleAction × Except TransportErr Bool :=
  if is_streaming = false then ([], .ok false)
  else if writeOk = false then ([], .error .writeFailed)
  else if stopNotifyOk = false then ([.writeStop], .error .stopNotifyFailed)
  else ([.writeStop, .unsubscribe], .ok false)

/-- start_stream (record.py lines 91-106) with the outcomes of start_notify and
write_gatt_char passed as flags. Returns the updated state, the boolean result (False
when the try block raised and the except branch ran), and whether the notification
subscription ended up installed. start_time is assigned only after both awaited
operations succeed. -/
def start_stream (subscribeOk writeOk : Bool) (now : Time) (s : RecState) :
    RecState × Bool × Bool :=
  if subscribeOk = false then (s, false, false)
  else if writeOk = false then (s, false, true)
  else ({ s with start_time := some now }, true, true)

/-- start_recording (record.py lines 126-130): unconditionally resets the recording
list to empty and returns True. -/
def start_recording (s : RecState) : RecState × Bool :=
  ({ s with recording := [] }, true)

/-- Exit branch of the command loop (record.py lines 221-223): stop_stream is awaited
with the current streaming flag; on normal return its value is stored in is_streaming
and the loop breaks, while an escaping transport exception skips the assignment and
terminates the loop exceptionally. The BLE actions stop_stream performed are returned
as the third component. -/
def exit_command (writeOk stopNotifyOk : Bool) (s : RecState) :
    RecState × Option TransportErr × List BleAction :=
  match stop_stream s.is_streaming writeOk stopNotifyOk with
  | (acts, .ok b) => ({ s with is_streaming := b }, none, acts)
  | (acts, .error e) => (s, some e, acts)

/-- C3 counterexample: while streaming, with the STOP write failing, stop_stream does
not return the not-streaming value; the exception escapes instead, so the claimed
assume-stopped semantics fails on the code. -/
theorem stop_stream_failure_cex :
    (stop_stream true false true).2 ≠ .ok false ∧
    (stop_stream true false true).2 = .error TransportErr.writeFailed := by
  constructor
  · intro h
    simp [stop_stream] at h
  · rfl

/-- C3 (amended): stop_stream returns False without touching the transport when not
streaming; when streaming and both the STOP write and the unsubscribe succeed it
performs them and returns False; when either awaited operation fails the exception
propagates instead of a return value, and the exit branch of the command loop then
leaves is_streaming unchanged (still true). -/
theorem stop_stream_best_effort (writeOk stopNotifyOk : Bool) (s : RecState)
    (hfail : writeOk = false ∨ stopNotifyOk = false) (hs : s.is_streaming = true) :
    stop_stream false writeOk stopNotifyOk = ([], .ok false) ∧
    stop_stream true true true = ([.writeStop, .unsubscribe], .ok false) ∧
    (∃ e, (stop_stream true writeOk stopNotifyOk).2 = .error e) ∧
    (exit_command writeOk stopNotifyOk s).1 = s := by
  refine ⟨rfl, rfl, ?_, ?_⟩
  · rcases hfail with h | h <;> subst h
    · exact ⟨.writeFailed, rfl⟩
    · cases writeOk
      · exact ⟨.writeFailed, rfl⟩
      · exact ⟨.stopNotifyFailed, rfl⟩
  · unfold exit_command stop_stream
    rw [hs]
    rcases hfail with h | h <;> subst h
    · simp
    · cases writeOk <;> simp

/-- Witness for the amended C3 with the STOP write failing while streaming. -/
theorem stop_stream_best_effort_witness :
    ((false = false ∨ true = false) ∧
      ({ init_state with is_streaming := true } : RecState).is_streaming = true) ∧
    (stop_stream false false true = ([], .ok false) ∧
      stop_stream true true true = ([.writeStop, .unsubscribe], .ok false) ∧
      (∃ e, (stop_stream true false true).2 = .error e) ∧
      (exit_command false true { init_state with is_streaming := true }).1 =
        { init_state with is_streaming := true }) :=
  ⟨⟨Or.inl rfl, rfl⟩,
    stop_stream_best_effort false true { init_state with is_streaming := true }
      (Or.inl rfl) rfl⟩

/-- C6: start_recording always resets the recording buffer to the empty list and
reports True, also when recording is already logically active, so previously
accumulated unsaved samples are discarded. -/
theorem start_recording_resets (s : RecState) :
    (start_recording s).1.recording = [] ∧ (start_recording s).2 = true ∧
    start_recording s = ({ s with recording := [] }, true) :=
  ⟨rfl, rfl, rfl⟩

/-- C9: with the GATT operations succeeding, the exit command issued while streaming
performs the STOP write and the unsubscribe before the loop terminates and leaves
is_streaming false; issued while not streaming it performs no BLE action and the flag
is false afterwards, whatever the transport would have done. -/
theorem exit_forces_stop (s : RecState) (writeOk stopNotifyOk : Bool) :
    (s.is_streaming = true →
      exit_command true true s =
        ({ s with is_streaming := false }, none, [.writeStop, .unsubscribe])) ∧
    (s.is_streaming = false →
      exit_command writeOk stopNotifyOk s =
        ({ s with is_streaming := false }, none, [])) := by
  constructor
  · intro h
    simp [exit_command, stop_stream, h]
  · intro h
    simp [exit_command, stop_stream, h]

/-- Witness for C9: exit while streaming, and exit from the initial state. -/
theorem exit_forces_stop_witness :
    (({ init_state with is_streaming := true } : RecState).is_streaming = true ∧
      exit_command true true { init_state with is_streaming := true } =
        ({ { init_state with is_streaming := true } with is_streaming := false }, none,
          [.writeStop, .unsubscribe])) ∧
    (init_state.is_streaming = false ∧
      exit_command false false init_state =
        ({ init_state with is_streaming := false }, none, [])) :=
  ⟨⟨rfl, (exit_forces_stop { init_state with is_streaming := true } true true).1 rfl⟩,
    ⟨rfl, (exit_forces_stop init_state false false).2 rfl⟩⟩

/-- C10: the handler has the unstated precondition that start_time is set. A START
write failure inside start_stream still leaves the subscription installed with
start_time unset, and a notification delivered while start_time is None makes the
handler fail on the elapsed-time computation: the error is reported, the state is
untouched, and no append or discard decision is taken. -/
theorem handler_start_time_precondition (now tWrite : Time) (data : List ℕ)
    (s : RecState) (hst : s.start_time = none) :
    (start_stream true false tWrite s).1.start_time = none ∧
    (start_stream true false tWrite s).2.1 = false ∧
    (start_stream true false tWrite s).2.2 = true ∧
    notification_handler now data s = (s, some HandlerErr.startTimeNone) := by
  refine ⟨?_, rfl, rfl, ?_⟩
  · unfold start_stream
    simp [hst]
  · unfold notification_handler
    rw [hst]

/-- Witness for C10 at the initial state, whose start_time is None. -/
theorem handler_start_time_precondition_witness :
    init_state.start_time = none ∧
    ((start_stream true false 0 init_state).1.start_time = none ∧
      (start_stream true false 0 init_state).2.1 = false ∧
      (start_stream true false 0 init_state).2.2 = true ∧
      notification_handler 0 (List.replicate 243 0) init_state =
        (init_state, some HandlerErr.startTimeNone)) :=
  ⟨rfl, handler_start_time_precondition 0 0 (List.replicate 243 0) init_state rfl⟩

/-- One inbound notification: its delivery time and raw bytes. -/
structure PacketEvent where
  time : Time
  data : List ℕ

/-- Deliver a list of notifications in arrival order. An exception escaping the handler
is absorbed by the transport layer after logging, so delivery continues from the state
the handler left behind (which the handler never mutated before raising). -/
def runPackets (events : List PacketEvent) (s : RecState) : RecState :=
  events.foldl (fun st e => (notification_handler e.time e.data st).1) s

/-- Number of samples one packet contributes once decoded: 121 when at least 243 bytes
long, none otherwise (the parse raises and nothing is appended). -/
def decodedCount (data : List ℕ) : ℕ :=
  if 243 ≤ data.length then 121 else 0

theorem runPackets_cons (e : PacketEvent) (rest : List PacketEvent) (s : RecState) :
    runPackets (e :: rest) s = runPackets rest (notification_handler e.time e.data s).1 :=
  rfl


theorem handler_preserves_flags (now : Time) (data : List ℕ) (s : RecState) :
    (notification_handler now data s).1.is_recording = s.is_recording ∧
    (notification_handler now data s).1.start_time = s.start_time ∧
    (notification_handler now data s).1.is_streaming = s.is_streaming := by
  obtain ⟨a, r, ir, istr, st⟩ := s
  cases st with
  | none => exact ⟨rfl, rfl, rfl⟩
  | some t0 =>
    by_cases h : now - t0 < 2 * USEC_PER_SECOND
    · simp [notification_handler, h]
    · cases hd : decodePacket data with
      | error e => simp [notification_handler, h, hd]
      | ok v =>
        obtain ⟨q, samples⟩ := v
        simp [notification_handler, h, hd]

theorem handler_recording_length (now t0 : Time) (data : List ℕ) (s : RecState)
    (hst : s.start_time = some t0) (hrec : s.is_recording = true) :
    (notification_handler now data s).1.recording.length =
      s.recording.length +
        (if 2 * USEC_PER_SECOND ≤ now - t0 then decodedCount data else 0) := by
  by_cases h : now - t0 < 2 * USEC_PER_SECOND
  · simp [notification_handler, hst, h, not_le.mpr h]
  · by_cases hlen : 243 ≤ data.length
    · simp [notification_handler, hst, h, not_lt.mp h, decodePacket_ok data hlen, hrec,
        decodedCount, hlen, decodeI16LE_length]
      omega
    · simp [notification_handler, hst, h, not_lt.mp h,
        decodePacket_short data (by omega), decodedCount, hlen]

theorem handler_recording_inactive (now : Time) (data : List ℕ) (s : RecState)
    (h : s.is_recording = false) :
    (notification_handler now data s).1.recording = s.recording := by
  obtain ⟨a, r, ir, istr, st⟩ := s
  simp only at h
  cases st with
  | none => rfl
  | some t0 =>
    by_cases ht : now - t0 < 2 * USEC_PER_SECOND
    · simp [notification_handler, ht]
    · cases hd : decodePacket data with
      | error e => simp [notification_handler, ht, hd]
      | ok v =>
        obtain ⟨q, samples⟩ := v
        simp [notification_handler, ht, hd, h]

theorem runPackets_recording_length (t0 : Time) (events : List PacketEvent)
    (s : RecState) (hst : s.start_time = some t0) (hrec : s.is_recording = true) :
    (runPackets events s).recording.length =
      s.recording.length +
        ((events.filter fun e => decide (2 * USEC_PER_SECOND ≤ e.time - t0)).map
          fun e => decodedCount e.data).sum := by
  induction events generalizing s with
  | nil => simp [runPackets]
  | cons e rest ih =>
    have hflags := handler_preserves_flags e.time e.data s
    have hst' : (notification_handler e.time e.data s).1.start_time = some t0 := by
      rw [hflags.2.1, hst]
    have hrec' : (notification_handler e.time e.data s).1.is_recording = true := by
      rw [hflags.1, hrec]
    rw [runPackets_cons, ih _ hst' hrec',
      handler_recording_length e.time t0 e.data s hst hrec]
    by_cases ht : 2 * USEC_PER_SECOND ≤ e.time - t0
    · simp [List.filter_cons, ht]
      omega
    · simp [List.filter_cons, ht]

/-- C4: a notification arriving strictly less than 2 seconds after start_time is
discarded with neither buffer touched, and with recording active from an empty
recording buffer the recording length after any packet sequence equals the total
decoded sample count of exactly the packets that arrive at least 2 seconds after
stream start. -/
theorem early_notification_suppression (t0 now : Time) (data : List ℕ)
    (events : List PacketEvent) (s : RecState) (hst : s.start_time = some t0) :
    (now - t0 < 2 * USEC_PER_SECOND → notification_handler now data s = (s, none)) ∧
    (s.is_recording = true → s.recording = [] →
      (runPackets events s).recording.length =
        ((events.filter fun e => decide (2 * USEC_PER_SECOND ≤ e.time - t0)).map
          fun e => decodedCount e.data).sum) := by
  constructor
  · intro h
    simp [notification_handler, hst, h]
  · intro hrec hempty
    rw [runPackets_recording_length t0 events s hst hrec, hempty]
    simp

/-- Witness for C4: one packet one second in (suppressed) and one three seconds in. -/
theorem early_notification_suppression_witness :
    ({ init_state with is_recording := true, start_time := some 0 } : RecState).start_time
        = some 0 ∧
    (((1000000 : Time) - 0 < 2 * USEC_PER_SECOND →
        notification_handler 1000000 (List.replicate 243 0)
            { init_state with is_recording := true, start_time := some 0 } =
          ({ init_state with is_recording := true, start_time := some 0 }, none)) ∧
      (({ init_state with is_recording := true, start_time := some 0 } : RecState).is_recording
          = true →
        ({ init_state with is_recording := true, start_time := some 0 } : RecState).recording
          = [] →
        (runPackets [⟨1000000, List.replicate 243 0⟩, ⟨3000000, List.replicate 243 0⟩]
            { init_state with is_recording := true, start_time := some 0 }).recording.length =
          ((([⟨1000000, List.replicate 243 0⟩, ⟨3000000, List.replicate 243 0⟩] :
                List PacketEvent).filter
              fun e => decide (2 * USEC_PER_SECOND ≤ e.time - 0)).map
            fun e => decodedCount e.data).sum)) :=
  ⟨rfl,
    early_notification_suppression 0 1000000 (List.replicate 243 0)
      [⟨1000000, List.replicate 243 0⟩, ⟨3000000, List.replicate 243 0⟩]
      { init_state with is_recording := true, start_time := some 0 } rfl⟩

/-- C5: while streaming with recording inactive, no delivered packet sequence ever puts
a sample into the recording buffer: its length stays 0. -/
theorem recording_inactive_no_append (events : List PacketEvent) (s : RecState)
    (hstr : s.is_streaming = true) (hrec : s.is_recording = false)
    (hempty : s.recording = []) :
    (runPackets events s).recording = [] := by
  induction events generalizing s with
  | nil => simpa [runPackets] using hempty
  | cons e rest ih =>
    rw [runPackets_cons]
    refine ih _ ?_ ?_ ?_
    · rw [(handler_preserves_flags e.time e.data s).2.2, hstr]
    · rw [(handler_preserves_flags e.time e.data s).1, hrec]
    · rw [handler_recording_inactive e.time e.data s hrec, hempty]

/-- Witness for C5: two well-formed packets delivered past the guard while streaming
with recording off leave the recording buffer empty. -/
theorem recording_inactive_no_append_witness :
    (({ init_state with is_streaming := true, start_time := some 0 } : RecState).is_streaming
        = true ∧
      ({ init_state with is_streaming := true, start_time := some 0 } : RecState).is_recording
        = false ∧
      ({ init_state with is_streaming := true, start_time := some 0 } : RecState).recording
        = []) ∧
    (runPackets [⟨3000000, List.replicate 243 0⟩, ⟨4000000, List.replicate 243 0⟩]
        { init_state with is_streaming := true, start_time := some 0 }).recording = [] :=
  ⟨⟨rfl, rfl, rfl⟩,
    recording_inactive_no_append
      [⟨3000000, List.replicate 243 0⟩, ⟨4000000, List.replicate 243 0⟩]
      { init_state with is_streaming := true, start_time := some 0 } rfl rfl rfl⟩

/-- Byte pair produced by struct.pack format <h for one in-range signed 16-bit value:
the little-endian two's-complement encoding. -/
def i16Bytes (v : ℤ) : List ℕ :=
  [(v % 65536).toNat % 256, (v % 65536).toNat / 256]

/-- WAV file as configured through the wave module in save_recording: channel count,
bytes per sample, declared frame rate, and the raw data payload handed to writeframes. -/
structure WavFile where
  nchannels : ℕ
  sampwidth : ℕ
  framerate : ℕ
  frames : List ℕ

/-- save_recording (record.py lines 139-145): one channel, sample width 2 bytes, frame
rate SAMPLE_RATE, and the payload written is struct.pack format <Kh of the K recorded
samples in order. -/
def save_recording (recording : List ℤ) : WavFile :=
  { nchannels := 1, sampwidth := 2, framerate := SAMPLE_RATE,
    frames := (recording.map i16Bytes).flatten }

theorem decodeI16LE_encode (v : ℤ) (rest : List ℕ) (h1 : -32768 ≤ v)
    (h2 : v < 32768) :
    decodeI16LE (i16Bytes v ++ rest) = v :: decodeI16LE rest := by
  have hv : leI16 ((v % 65536).toNat % 256) ((v % 65536).toNat / 256) = v := by
    simp only [leI16]
    split
    · omega
    · omega
  simp [i16Bytes, decodeI16LE, hv]

theorem save_frames_length :
    ∀ recording : List ℤ, ((recording.map i16Bytes).flatten).length = 2 * recording.length
  | [] => rfl
  | v :: rest => by
    simp only [List.map_cons, List.flatten_cons, List.length_append, List.length_cons,
      i16Bytes, List.length_nil, save_frames_length rest]
    omega

theorem save_frames_decode :
    ∀ recording : List ℤ, (∀ v ∈ recording, -32768 ≤ v ∧ v < 32768) →
      decodeI16LE ((recording.map i16Bytes).flatten) = recording
  | [], _ => rfl
  | v :: rest, h => by
    have hv := h v (List.mem_cons_self v rest)
    simp only [List.map_cons, List.flatten_cons]
    rw [decodeI16LE_encode v _ hv.1 hv.2,
      save_frames_decode rest (fun w hw => h w (List.mem_cons_of_mem v hw))]

/-- C7: saving a recording of K in-range samples produces a mono file of sample width
2 bytes declaring sample rate 32000 whose data payload is exactly 2 times K bytes and
decodes back, as consecutive little-endian signed 16-bit values, to the K samples in
receipt order. -/
theorem save_recording_wav (recording : List ℤ)
    (hrange : ∀ v ∈ recording, -32768 ≤ v ∧ v < 32768) :
    (save_recording recording).nchannels = 1 ∧
    (save_recording recording).sampwidth = 2 ∧
    (save_recording recording).framerate = 32000 ∧
    (save_recording recording).frames.length = 2 * recording.length ∧
    decodeI16LE (save_recording recording).frames = recording :=
  ⟨rfl, rfl, rfl, save_frames_length recording, save_frames_decode recording hrange⟩

/-- Witness for C7 at a four-sample recording spanning the signed 16-bit range. -/
theorem save_recording_wav_witness :
    (∀ v ∈ ([0, -1, 32767, -32768] : List ℤ), -32768 ≤ v ∧ v < 32768) ∧
    ((save_recording [0, -1, 32767, -32768]).nchannels = 1 ∧
      (save_recording [0, -1, 32767, -32768]).sampwidth = 2 ∧
      (save_recording [0, -1, 32767, -32768]).framerate = 32000 ∧
      (save_recording [0, -1, 32767, -32768]).frames.length =
        2 * ([0, -1, 32767, -32768] : List ℤ).length ∧
      decodeI16LE (save_recording [0, -1, 32767, -32768]).frames =
        [0, -1, 32767, -32768]) :=
  ⟨by decide, save_recording_wav [0, -1, 32767, -32768] (by decide)⟩

/-- Advertised peripheral as the detection callback sees it: optional advertised name
and hardware address. -/
structure AdvDevice where
  name : Option String
  address : String
  deriving DecidableEq

/-- Substring occurrence over character lists, the semantics of the Python in operator
on strings. -/
def hasSub (needle : List Char) : List Char → Bool
  | [] => needle.isEmpty
  | c :: rest => needle.isPrefixOf (c :: rest) || hasSub needle rest

/-- Python needle in hay on strings. -/
def strContains (needle hay : String) : Bool :=
  hasSub needle.toList hay.toList

/-- Acceptance test of detection_callback (record.py line 168): the device is present,
its name is truthy (not None and non-empty), contains "Amua", and its address is in
the DEVICES allow-list. -/
def detection_accept (d : AdvDevice) : Bool :=
  match d.name with
  | none => false
  | some n => (!(n == "")) && strContains "Amua" n && DEVICES.contains d.address

/-- One advertisement during the scan, timestamped in microseconds from scan start. -/
structure Advertisement where
  time : Time
  dev : AdvDevice

/-- Scan timeout of record.py line 178: 10 seconds. -/
def SCAN_TIMEOUT_USEC : ℤ := 10 * USEC_PER_SECOND

/-- Device Locator (record.py lines 163-188): detection callbacks run in arrival order
for advertisements arriving before the timeout; the first accepted device resolves the
wait, and with no accepted advertisement the wait times out with no device. -/
def locate (ads : List Advertisement) : Option AdvDevice :=
  ((ads.filter fun a => decide (a.time < SCAN_TIMEOUT_USEC)).find?
    fun a => detection_accept a.dev).map fun a => a.dev

/-- Connection gate of main (record.py lines 186-192): the BleakClient connection is
attempted exactly when the scan produced a device. -/
def connection_attempted (found : Option AdvDevice) : Bool :=
  found.isSome

theorem strContains_amua_ne_empty (n : String) (h : strContains "Amua" n = true) :
    (n == "") = false := by
  cases hne : n == ""
  · rfl
  · exfalso
    have : n = "" := beq_iff_eq.mp hne
    rw [this] at h
    exact absurd h (by decide)

theorem detection_accept_iff (d : AdvDevice) :
    detection_accept d = true ↔
      (∃ n, d.name = some n ∧ strContains "Amua" n = true) ∧ d.address ∈ DEVICES := by
  cases hn : d.name with
  | none => simp [detection_accept, hn]
  | some n =>
    simp only [detection_accept, hn, Bool.and_eq_true, Bool.not_eq_true']
    constructor
    · rintro ⟨⟨-, hc⟩, hmem⟩
      refine ⟨⟨n, rfl, hc⟩, ?_⟩
      simpa [List.contains] using hmem
    · rintro ⟨⟨m, hm, hc⟩, hmem⟩
      obtain rfl : n = m := by injection hm
      exact ⟨⟨strContains_amua_ne_empty n hc, hc⟩, by simpa [List.contains] using hmem⟩

/-- C8: the Device Locator accepts a discovered peripheral exactly when its advertised
name contains the marker "Amua" and its address is in the DEVICES allow-list; it
resolves with the first matching advertisement arriving before the 10-second timeout,
and with no match before the timeout it reports not-found and no connection is
attempted. -/
theorem device_locator_spec (d : AdvDevice) (ads pre post : List Advertisement)
    (a : Advertisement) :
    (detection_accept d = true ↔
      (∃ n, d.name = some n ∧ strContains "Amua" n = true) ∧ d.address ∈ DEVICES) ∧
    (ads = pre ++ a :: post → a.time < SCAN_TIMEOUT_USEC →
      detection_accept a.dev = true →
      (∀ b ∈ pre, b.time < SCAN_TIMEOUT_USEC → detection_accept b.dev = false) →
      locate ads = some a.dev ∧ connection_attempted (locate ads) = true) ∧
    ((∀ b ∈ ads, b.time < SCAN_TIMEOUT_USEC → detection_accept b.dev = false) →
      locate ads = none ∧ connection_attempted (locate ads) = false) := by
  refine ⟨detection_accept_iff d, ?_, ?_⟩
  · rintro rfl hta haccept hpre
    have hfilter :
        (pre ++ a :: post).filter (fun x => decide (x.time < SCAN_TIMEOUT_USEC)) =
          pre.filter (fun x => decide (x.time < SCAN_TIMEOUT_USEC)) ++
            a :: post.filter (fun x => decide (x.time < SCAN_TIMEOUT_USEC)) := by
      simp [List.filter_append, List.filter_cons, hta]
    have hnone :
        ((pre.filter fun x => decide (x.time < SCAN_TIMEOUT_USEC)).find?
          fun x => detection_accept x.dev) = none := by
      rw [List.find?_eq_none]
      intro x hx
      have hm := List.mem_filter.mp hx
      simp only [decide_eq_true_eq] at hm
      simp [hpre x hm.1 hm.2]
    constructor
    · unfold locate
      rw [hfilter, List.find?_append, hnone]
      simp [List.find?_cons, haccept]
    · unfold locate connection_attempted
      rw [hfilter, List.find?_append, hnone]
      simp [List.find?_cons, haccept]
  · intro hall
    have hnone :
        ((ads.filter fun x => decide (x.time < SCAN_TIMEOUT_USEC)).find?
          fun x => detection_accept x.dev) = none := by
      rw [List.find?_eq_none]
      intro x hx
      have hm := List.mem_filter.mp hx
      simp only [decide_eq_true_eq] at hm
      simp [hall x hm.1 hm.2]
    constructor
    · unfold locate
      rw [hnone]
      rfl
    · unfold locate connection_attempted
      rw [hnone]
      rfl

/-- Witness for C8: the spec scenario device named "Amua-X" at an allow-listed address
advertising five seconds in is found; the same device advertising only after the
timeout leaves the scan empty-handed with no connection attempt. -/
theorem device_locator_spec_witness :
    detection_accept (AdvDevice.mk (some "Amua-X") "D5:91:CC:7A:AC:E4") = true ∧
    (locate [Advertisement.mk 5000000
          (AdvDevice.mk (some "Amua-X") "D5:91:CC:7A:AC:E4")] =
        some (AdvDevice.mk (some "Amua-X") "D5:91:CC:7A:AC:E4") ∧
      connection_attempted (locate [Advertisement.mk 5000000
          (AdvDevice.mk (some "Amua-X") "D5:91:CC:7A:AC:E4")]) = true) ∧
    (locate [Advertisement.mk 11000000
          (AdvDevice.mk (some "Amua-X") "D5:91:CC:7A:AC:E4")] = none ∧
      connection_attempted (locate [Advertisement.mk 11000000
          (AdvDevice.mk (some "Amua-X") "D5:91:CC:7A:AC:E4")]) = false) :=
  ⟨by decide,
    (device_locator_spec (AdvDevice.mk (some "Amua-X") "D5:91:CC:7A:AC:E4")
        [Advertisement.mk 5000000 (AdvDevice.mk (some "Amua-X") "D5:91:CC:7A:AC:E4")]
        [] []
        (Advertisement.mk 5000000
          (AdvDevice.mk (some "Amua-X") "D5:91:CC:7A:AC:E4"))).2.1
      rfl (by decide) (by decide) (by simp),
    (device_locator_spec (AdvDevice.mk (some "Amua-X") "D5:91:CC:7A:AC:E4")
        [Advertisement.mk 11000000 (AdvDevice.mk (some "Amua-X") "D5:91:CC:7A:AC:E4")]
        [] []
        (Advertisement.mk 11000000
          (AdvDevice.mk (some "Amua-X") "D5:91:CC:7A:AC:E4"))).2.2
      (by
        intro b hb ht
        simp only [List.mem_singleton] at hb
        subst hb
        exact absurd ht (by decide))⟩
